import Mathlib

/-!
# Flight-Simulator: verification of the simulation actor

Shallow embedding of the simulation core of the Flight-Simulator repository:
`internal/simulator/simulator.go` (tick, handleCommand, updatePosition,
executeGoTo, executeTrajectory, executeHold, adjustHeading, adjustSpeed,
clamp), `pkg/geo/distance.go` (Haversine), `pkg/geo/bearing.go` (Bearing),
and `internal/environment` (WindEffect.Apply, Environment.ApplyEffects).

Go `float64` values are modelled as rationals (`ℚ`).  The transcendental
library functions (`math.Cos`, `math.Sin`, `math.Sqrt`, `math.Atan2`) and the
float constant `math.Pi` are uninterpreted: they are fields of a `GeoModel`
parameter, and theorems carry only the hypotheses about them that are true of
the IEEE-754 implementations (e.g. `|atan2 y x| ≤ π`).  All the properties
verified here are about how the simulator branches on and combines these
values, not about their numeric accuracy.  The one place where IEEE-754
semantics differs from rational arithmetic in a way a claim depends on —
division by zero producing `+Inf`/`NaN` in `executeGoTo`'s vertical-speed
block — is written out explicitly as a case split (see `goToVertical`).

Concurrency (goroutines, channels, the publisher) is outside the embedding:
`tick` and `handleCommand` are modelled as pure state transformers, which is
faithful because the Go actor services exactly one of {tick, command, query}
per loop iteration.  The `time.Now()` timestamp is an abstract `ℕ` supplied
to `tick`.  A Go panic (out-of-range slice index in `executeTrajectory`) is
modelled by `Option`: `none` means the tick panics.
-/

/-- Uninterpreted models of the transcendental `math` library functions used
by the simulator, together with the float constant `math.Pi`.  A concrete
instance is only ever a stand-in agreeing with the IEEE-754 functions at the
finitely many arguments a concrete evaluation reaches. -/
structure GeoModel where
  pi : ℚ
  cos : ℚ → ℚ
  sin : ℚ → ℚ
  sqrt : ℚ → ℚ
  atan2 : ℚ → ℚ → ℚ

/-- Truncation of a rational toward zero, the rounding used by Go's
`math.Mod`. -/
def ratTrunc (q : ℚ) : ℤ := if 0 ≤ q then ⌊q⌋ else ⌈q⌉

/-- Go's `math.Mod(x, y) = x - y*trunc(x/y)`: the result has the sign of `x`
(IEEE-754 remainder, which is exact). -/
def goMod (x y : ℚ) : ℚ := x - y * (ratTrunc (x / y) : ℚ)

/-- `models.Position` (`internal/models/aircraft.go`). -/
structure Position where
  latitude : ℚ
  longitude : ℚ
  altitude : ℚ
deriving DecidableEq

/-- `models.Velocity` (`internal/models/aircraft.go`). -/
structure Velocity where
  groundSpeed : ℚ
  verticalSpeed : ℚ
deriving DecidableEq

/-- `models.GoToCommand` (`internal/models/commands.go`). -/
structure GoToCommand where
  target : Position
  speed : Option ℚ
deriving DecidableEq

/-- `models.Waypoint`. -/
structure Waypoint where
  position : Position
  speed : Option ℚ
deriving DecidableEq

/-- `models.TrajectoryCommand`. -/
structure TrajectoryCommand where
  waypoints : List Waypoint
  loop : Bool
deriving DecidableEq

/-- `models.Command`: in Go a struct with a `Type` tag and optional payload
pointers, where exactly the pointer matching the tag is non-nil (the HTTP
handlers construct commands this way, and payload presence is the only
validation the actor assumes).  That shape is a tagged sum.  The `ID` string
feeds only logging and is omitted. -/
inductive Command where
  | goto (cmd : GoToCommand)
  | trajectory (cmd : TrajectoryCommand)
  | hold
  | stop
deriving DecidableEq

/-- `environment.WindEffect`. -/
structure WindEffect where
  direction : ℚ
  speed : ℚ
deriving DecidableEq

/-- `environment.Environment` (a non-nil pointer; `Option Environment` below
models the possibly-nil pointer held by the simulator).  The `humidity` field
is never used by the kinematics and is omitted. -/
structure Environment where
  wind : Option WindEffect
  enabled : Bool
deriving DecidableEq

/-- The kinematic fields of `config.SimulationConfig` consumed by the tick. -/
structure SimConfig where
  defaultSpeed : ℚ
  maxSpeed : ℚ
  maxClimbRate : ℚ
  maxDescentRate : ℚ
  positionTolerance : ℚ
  headingChangeRate : ℚ
  speedChangeRate : ℚ
deriving DecidableEq

/-- The actor-owned state: `models.AircraftState` (position, velocity,
heading, timestamp) together with the simulator's `activeCommand` and
`trajectoryState` (the current waypoint index; `none` models the nil
pointer).  The timestamp is an abstract tick count standing in for
`time.Time`. -/
structure SimState where
  position : Position
  velocity : Velocity
  heading : ℚ
  timestamp : ℕ
  activeCommand : Option Command
  trajectoryState : Option ℕ
deriving DecidableEq

/-- `geo.toRadians`. -/
def toRadians (g : GeoModel) (degrees : ℚ) : ℚ := degrees * g.pi / 180

/-- `geo.toDegrees`. -/
def toDegrees (g : GeoModel) (radians : ℚ) : ℚ := radians * 180 / g.pi

/-- `geo.Haversine` (`pkg/geo/distance.go`): great-circle distance in meters
on a sphere of radius 6,371,000 m. -/
def Haversine (g : GeoModel) (lat1 lon1 lat2 lon2 : ℚ) : ℚ :=
  let lat1Rad := toRadians g lat1
  let lat2Rad := toRadians g lat2
  let dLat := toRadians g (lat2 - lat1)
  let dLon := toRadians g (lon2 - lon1)
  let a := g.sin (dLat / 2) * g.sin (dLat / 2) +
    g.cos lat1Rad * g.cos lat2Rad * (g.sin (dLon / 2) * g.sin (dLon / 2))
  let c := 2 * g.atan2 (g.sqrt a) (g.sqrt (1 - a))
  6371000 * c

/-- `geo.Bearing` (`pkg/geo/bearing.go`): initial bearing in degrees,
normalized by `math.Mod(bearingDeg+360, 360)`. -/
def Bearing (g : GeoModel) (lat1 lon1 lat2 lon2 : ℚ) : ℚ :=
  let lat1Rad := toRadians g lat1
  let lat2Rad := toRadians g lat2
  let dLon := toRadians g (lon2 - lon1)
  let y := g.sin dLon * g.cos lat2Rad
  let x := g.cos lat1Rad * g.sin lat2Rad - g.sin lat1Rad * g.cos lat2Rad * g.cos dLon
  let bearingRad := g.atan2 y x
  let bearingDeg := toDegrees g bearingRad
  goMod (bearingDeg + 360) 360

/-- `simulator.clamp`. -/
def clamp (value min max : ℚ) : ℚ :=
  if value < min then min
  else if value > max then max
  else value

/-- The wrapped signed difference computed inline in
`simulator.adjustHeading` (the spec's `ShortestAngularDelta(from, to)`):
`diff := to - from`, then one `±360` wrap. -/
def shortestAngularDelta (f t : ℚ) : ℚ :=
  let diff := t - f
  if diff > 180 then diff - 360
  else if diff < -180 then diff + 360
  else diff

/-- `simulator.adjustHeading`: rotate `heading` toward `targetHeading` by at
most `headingChangeRate * dt` along the shorter arc (snapping when closer
than that), then normalize with `math.Mod(heading+360, 360)`. -/
def adjustHeading (cfg : SimConfig) (targetHeading dt heading : ℚ) : ℚ :=
  let diff := shortestAngularDelta heading targetHeading
  let maxTurn := cfg.headingChangeRate * dt
  let h :=
    if |diff| < maxTurn then targetHeading
    else if diff > 0 then heading + maxTurn
    else heading - maxTurn
  goMod (h + 360) 360

/-- `simulator.adjustSpeed`: move ground speed toward `targetSpeed` by at
most `speedChangeRate * dt`, then clamp to `maxSpeed` above and `0` below. -/
def adjustSpeed (cfg : SimConfig) (targetSpeed dt : ℚ) (v : Velocity) : Velocity :=
  let diff := targetSpeed - v.groundSpeed
  let maxChange := cfg.speedChangeRate * dt
  let gs :=
    if |diff| < maxChange then targetSpeed
    else if diff > 0 then v.groundSpeed + maxChange
    else v.groundSpeed - maxChange
  let gs := if gs > cfg.maxSpeed then cfg.maxSpeed else gs
  let gs := if gs < 0 then 0 else gs
  { v with groundSpeed := gs }

/-- `simulator.updatePosition(deltaTime, velocity)`: integrate motion.  Reads
the state's heading and latitude, displaces the position by the supplied
velocity, and clamps altitude to `≥ 0` (zeroing the *state's* vertical speed
on clamp, as the Go code mutates `s.state.Velocity.VerticalSpeed`).
The division by `metersPerDegreeLon` is exact rational division; the Go
float `111000 * math.Cos(latRad)` is never exactly zero for representable
latitudes, so no IEEE infinity arises here. -/
def updatePosition (g : GeoModel) (dt : ℚ) (velocity : Velocity) (st : SimState) : SimState :=
  let distance := velocity.groundSpeed * dt
  let headingRad := st.heading * g.pi / 180
  let metersPerDegreeLat : ℚ := 111000
  let metersPerDegreeLon := 111000 * g.cos (st.position.latitude * g.pi / 180)
  let deltaLat := distance * g.cos headingRad / metersPerDegreeLat
  let deltaLon := distance * g.sin headingRad / metersPerDegreeLon
  let lat := st.position.latitude + deltaLat
  let lon := st.position.longitude + deltaLon
  let alt := st.position.altitude + velocity.verticalSpeed * dt
  if alt < 0 then
    { st with position := ⟨lat, lon, 0⟩,
              velocity := { st.velocity with verticalSpeed := 0 } }
  else
    { st with position := ⟨lat, lon, alt⟩ }

/-- The vertical-speed block of `simulator.executeGoTo`:

  `timeToTarget := distance / groundSpeed`
  `if timeToTarget > 0 { verticalSpeed = clamp(altitudeDiff/timeToTarget, ...) }`

In Go (IEEE-754 float64) the division by a zero ground speed does not fault:
for `distance > 0` it yields `+Inf`, which *passes* the `> 0` guard, and then
`altitudeDiff / +Inf = 0`; for `distance = 0` it yields `NaN`, and
`NaN > 0` is false, so the update is skipped.  ℚ has no infinities, so those
two cases are written out explicitly; the remaining case is plain rational
arithmetic, identical to the float expression up to rounding. -/
def goToVertical (cfg : SimConfig) (distance altitudeDiff : ℚ) (v : Velocity) : Velocity :=
  if v.groundSpeed = 0 then
    if 0 < distance then
      { v with verticalSpeed := clamp 0 (-cfg.maxDescentRate) cfg.maxClimbRate }
    else v
  else
    let timeToTarget := distance / v.groundSpeed
    if timeToTarget > 0 then
      { v with verticalSpeed :=
          clamp (altitudeDiff / timeToTarget) (-cfg.maxDescentRate) cfg.maxClimbRate }
    else v

/-- `simulator.executeGoTo`: if the target is within `positionTolerance`,
complete (clear the active command, zero both speeds, return); otherwise
turn toward the bearing, adjust speed toward the commanded (or default)
speed, set vertical speed from the naive ETA, and integrate with the
resulting state velocity. -/
def executeGoTo (g : GeoModel) (cfg : SimConfig) (cmd : GoToCommand) (dt : ℚ)
    (st : SimState) : SimState :=
  let distance := Haversine g st.position.latitude st.position.longitude
    cmd.target.latitude cmd.target.longitude
  if distance < cfg.positionTolerance then
    { st with activeCommand := none, velocity := ⟨0, 0⟩ }
  else
    let targetHeading := Bearing g st.position.latitude st.position.longitude
      cmd.target.latitude cmd.target.longitude
    let h := adjustHeading cfg targetHeading dt st.heading
    let targetSpeed := cmd.speed.getD cfg.defaultSpeed
    let v1 := adjustSpeed cfg targetSpeed dt st.velocity
    let altitudeDiff := cmd.target.altitude - st.position.altitude
    let v2 := goToVertical cfg distance altitudeDiff v1
    updatePosition g dt v2 { st with heading := h, velocity := v2 }

/-- `simulator.executeHold`: decelerate toward 0, zero vertical speed,
integrate.  (The Go function receives the effective velocity as a parameter
but never reads it; accordingly it is not a parameter here.) -/
def executeHold (g : GeoModel) (cfg : SimConfig) (dt : ℚ) (st : SimState) : SimState :=
  let v1 := adjustSpeed cfg 0 dt st.velocity
  let v2 := { v1 with verticalSpeed := 0 }
  updatePosition g dt v2 { st with velocity := v2 }

/-- The waypoint-processing tail of `simulator.executeTrajectory`, from
`waypoint := cmd.Waypoints[index]` on.  `none` models the Go panic when the
index is out of range (possible for an empty waypoint list with `Loop`).
Within tolerance: increment the index and return (active command kept);
otherwise run the GoTo step toward the waypoint. -/
def trajProcess (g : GeoModel) (cfg : SimConfig) (cmd : TrajectoryCommand) (dt : ℚ)
    (idx : ℕ) (st : SimState) : Option SimState :=
  match cmd.waypoints.get? idx with
  | none => none
  | some waypoint =>
    let gotoCmd : GoToCommand := ⟨waypoint.position, waypoint.speed⟩
    let distance := Haversine g st.position.latitude st.position.longitude
      waypoint.position.latitude waypoint.position.longitude
    if distance < cfg.positionTolerance then
      some { st with trajectoryState := some (idx + 1) }
    else
      some (executeGoTo g cfg gotoCmd dt st)

/-- `simulator.executeTrajectory`: initialize the waypoint index to 0 if the
trajectory state is nil; if the index has run past the waypoint list, either
restart from 0 (`Loop`) or complete (clear the command and trajectory state,
zero both speeds); otherwise process the current waypoint. -/
def executeTrajectory (g : GeoModel) (cfg : SimConfig) (cmd : TrajectoryCommand) (dt : ℚ)
    (st : SimState) : Option SimState :=
  let idx := st.trajectoryState.getD 0
  let st1 := { st with trajectoryState := some idx }
  if cmd.waypoints.length ≤ idx then
    if cmd.loop then
      trajProcess g cfg cmd dt 0 { st1 with trajectoryState := some 0 }
    else
      some { st1 with activeCommand := none, trajectoryState := none, velocity := ⟨0, 0⟩ }
  else
    trajProcess g cfg cmd dt idx st1

/-- `WindEffect.Apply` (`internal/environment/wind.go`): compose the aircraft
velocity (resolved along the heading) with the wind vector (negated, because
the direction is meteorological "from"); the new ground speed is the
Euclidean norm of the sum; vertical speed is unaffected. -/
def windApply (g : GeoModel) (w : WindEffect) (heading : ℚ) (v : Velocity) : Velocity :=
  let headingRad := heading * g.pi / 180
  let windDirRad := w.direction * g.pi / 180
  let acNorth := v.groundSpeed * g.cos headingRad
  let acEast := v.groundSpeed * g.sin headingRad
  let windNorth := -w.speed * g.cos windDirRad
  let windEast := -w.speed * g.sin windDirRad
  let groundNorth := acNorth + windNorth
  let groundEast := acEast + windEast
  let newGroundSpeed := g.sqrt (groundNorth * groundNorth + groundEast * groundEast)
  { groundSpeed := newGroundSpeed, verticalSpeed := v.verticalSpeed }

/-- `Environment.IsEnabled`: `e != nil && e.enabled`. -/
def envIsEnabled (env : Option Environment) : Bool :=
  match env with
  | none => false
  | some e => e.enabled

/-- `Environment.ApplyEffects`: identity when the environment pointer is nil
or disabled; otherwise apply the wind effect when present. -/
def applyEffects (g : GeoModel) (env : Option Environment) (heading : ℚ)
    (v : Velocity) : Velocity :=
  match env with
  | none => v
  | some e =>
    if e.enabled = false then v
    else
      match e.wind with
      | none => v
      | some w => windApply g w heading v

/-- `simulator.tick`: compute the effective velocity, dispatch on the active
command (GoTo / Trajectory / Hold / Stop / none), stamp the timestamp.
`none` propagates a trajectory panic.  The `dt` is the configured tick period
(nominal, not measured) and `now` the abstract wall clock.  Attaching the
environment snapshot to the published state and the publish itself are
presentation-only and omitted. -/
def tick (g : GeoModel) (env : Option Environment) (cfg : SimConfig) (dt : ℚ)
    (now : ℕ) (st : SimState) : Option SimState :=
  let effectiveVelocity :=
    if envIsEnabled env then applyEffects g env st.heading st.velocity else st.velocity
  let stepped : Option SimState :=
    match st.activeCommand with
    | some (.goto cmd) => some (executeGoTo g cfg cmd dt st)
    | some (.trajectory cmd) => executeTrajectory g cfg cmd dt st
    | some .hold => some (executeHold g cfg dt st)
    | some .stop => some st
    | none => some (updatePosition g dt effectiveVelocity st)
  stepped.map fun s => { s with timestamp := now }

/-- `Command.isTrajectory`: the `cmd.Type == models.CommandTypeTrajectory`
test of `handleCommand`. -/
def Command.isTrajectory : Command → Bool
  | .trajectory _ => true
  | _ => false

/-- `simulator.handleCommand`: discard the waypoint index when a
non-trajectory command replaces a trajectory, install the new command as
active, and reset the index to 0 for a new trajectory command. -/
def handleCommand (cmd : Command) (st : SimState) : SimState :=
  let st1 :=
    if (match st.activeCommand with
        | some c => c.isTrajectory
        | none => false) && !cmd.isTrajectory
    then { st with trajectoryState := none } else st
  let st2 := { st1 with activeCommand := some cmd }
  if cmd.isTrajectory then { st2 with trajectoryState := some 0 } else st2

/-- `n` consecutive ticks, timestamps supplied by `nows`; `none` if any tick
panics. -/
def tickN (g : GeoModel) (env : Option Environment) (cfg : SimConfig) (dt : ℚ)
    (nows : ℕ → ℕ) : ℕ → SimState → Option SimState
  | 0, st => some st
  | n + 1, st => (tick g env cfg dt (nows n) st).bind (tickN g env cfg dt nows n)

/-! ## Helper lemmas -/

/-- `math.Mod(x, 360)` of a nonnegative argument lies in `[0, 360)`. -/
lemma goMod_bounds (x : ℚ) (hx : 0 ≤ x) : 0 ≤ goMod x 360 ∧ goMod x 360 < 360 := by
  have h360 : (0 : ℚ) < 360 := by norm_num
  have hq : 0 ≤ x / 360 := div_nonneg hx h360.le
  have hxq : 360 * (x / 360) = x := by field_simp
  have hfl : ((⌊x / 360⌋ : ℤ) : ℚ) ≤ x / 360 := Int.floor_le _
  have hfl2 : x / 360 < (⌊x / 360⌋ : ℤ) + 1 := Int.lt_floor_add_one _
  unfold goMod ratTrunc
  rw [if_pos hq]
  constructor
  · nlinarith
  · nlinarith

/-- The wrapped delta of two normalized headings lies in `[-180, 180]`. -/
lemma delta_range (a b : ℚ) (ha0 : 0 ≤ a) (ha : a < 360) (hb0 : 0 ≤ b) (hb : b < 360) :
    -180 ≤ shortestAngularDelta a b ∧ shortestAngularDelta a b ≤ 180 := by
  simp only [shortestAngularDelta]
  split_ifs <;> constructor <;> linarith

/-- The wrapped delta is antisymmetric on normalized headings. -/
lemma delta_antisymm (a b : ℚ) (ha0 : 0 ≤ a) (ha : a < 360) (hb0 : 0 ≤ b) (hb : b < 360) :
    shortestAngularDelta a b = -shortestAngularDelta b a := by
  simp only [shortestAngularDelta]
  split_ifs <;> linarith

/-- `adjustHeading` yields a heading in `[0, 360)` whenever the current and
target headings are normalized and the turn budget is nonnegative. -/
lemma adjustHeading_mem (cfg : SimConfig) (t dt h : ℚ)
    (hrate : 0 ≤ cfg.headingChangeRate * dt)
    (hh0 : 0 ≤ h) (hh : h < 360) (ht0 : 0 ≤ t) (ht : t < 360) :
    0 ≤ adjustHeading cfg t dt h ∧ adjustHeading cfg t dt h < 360 := by
  obtain ⟨hd1, hd2⟩ := delta_range h t hh0 hh ht0 ht
  simp only [adjustHeading]
  split_ifs with h1 h2
  · exact goMod_bounds _ (by linarith)
  · exact goMod_bounds _ (by linarith)
  · have habs : |shortestAngularDelta h t| ≤ 180 := abs_le.mpr ⟨hd1, hd2⟩
    have h3 : cfg.headingChangeRate * dt ≤ |shortestAngularDelta h t| := not_lt.mp h1
    exact goMod_bounds _ (by linarith)

/-- `Bearing` is normalized to `[0, 360)`, given only that the model's
`atan2` has the range of the IEEE-754 `math.Atan2` (`|atan2 y x| ≤ π`). -/
lemma bearing_mem (g : GeoModel) (hpi : 0 < g.pi)
    (hatan : ∀ y x : ℚ, |g.atan2 y x| ≤ g.pi) (lat1 lon1 lat2 lon2 : ℚ) :
    0 ≤ Bearing g lat1 lon1 lat2 lon2 ∧ Bearing g lat1 lon1 lat2 lon2 < 360 := by
  simp only [Bearing, toDegrees]
  apply goMod_bounds
  set y := g.sin (toRadians g (lon2 - lon1)) * g.cos (toRadians g lat2) with hy
  set x := g.cos (toRadians g lat1) * g.sin (toRadians g lat2) -
    g.sin (toRadians g lat1) * g.cos (toRadians g lat2) * g.cos (toRadians g (lon2 - lon1))
    with hx
  have h1 := abs_le.mp (hatan y x)
  have hdeg : -180 ≤ g.atan2 y x * 180 / g.pi := by
    rw [le_div_iff hpi]
    nlinarith [h1.1, h1.2]
  linarith

/-! ## Concrete fixtures (shared by witnesses and counterexamples) -/

/-- The spec's scenario configuration: positionTolerance 10 m, defaultSpeed
100 m/s, headingChangeRate 30°/s, speedChangeRate 50 m/s², maxSpeed 250,
climb/descent limits 10 m/s. -/
def cfg0 : SimConfig :=
  { defaultSpeed := 100, maxSpeed := 250, maxClimbRate := 10, maxDescentRate := 10,
    positionTolerance := 10, headingChangeRate := 30, speedChangeRate := 50 }

/-- The spec's tick period: 10 Hz. -/
def dt0 : ℚ := 1 / 10

/-- A trivial transcendental model for evaluations that never consult the
trigonometry (e.g. a Stop tick); `pi` is a positive stand-in and `atan2` is
identically `0`, inside the IEEE `[-π, π]` range. -/
def gZero : GeoModel :=
  { pi := 3, cos := fun _ => 0, sin := fun _ => 0, sqrt := fun _ => 0,
    atan2 := fun _ _ => 0 }

/-- An idle cruising state: no active command, ground speed 100 m/s,
climbing at 5 m/s, heading due north. -/
def stCruise : SimState :=
  { position := ⟨32, 34, 1000⟩, velocity := ⟨100, 5⟩, heading := 0,
    timestamp := 0, activeCommand := none, trajectoryState := none }

/-! ## C9 -/

/-- C9 counterexample: the wrapped signed difference attains `-180`:
`shortestAngularDelta 180 0 = -180`, which is outside the claimed interval
`(-180, +180]` (both 180 and 0 are normalized headings in `[0, 360)`). -/
theorem C9_counterexample :
    shortestAngularDelta 180 0 = -180 ∧ ¬(-180 < shortestAngularDelta 180 0) := by
  norm_num [shortestAngularDelta]

/-- C9 (amended): for all `from`, `to` in `[0, 360)`, the wrapped signed
difference used to turn the heading lies in the closed interval
`[-180, +180]` (the value `-180` is attained, e.g. at `(180, 0)`) and is
antisymmetric: `delta(a, b) = -delta(b, a)`. -/
theorem C9_delta_range_and_antisymm (a b : ℚ)
    (ha0 : 0 ≤ a) (ha : a < 360) (hb0 : 0 ≤ b) (hb : b < 360) :
    (-180 ≤ shortestAngularDelta a b ∧ shortestAngularDelta a b ≤ 180) ∧
    shortestAngularDelta a b = -shortestAngularDelta b a :=
  ⟨delta_range a b ha0 ha hb0 hb, delta_antisymm a b ha0 ha hb0 hb⟩

/-- Witness for C9 at `(from, to) = (10, 200)`. -/
theorem C9_delta_range_and_antisymm_witness :
    ((0:ℚ) ≤ 10 ∧ (10:ℚ) < 360 ∧ (0:ℚ) ≤ 200 ∧ (200:ℚ) < 360) ∧
    ((-180 ≤ shortestAngularDelta 10 200 ∧ shortestAngularDelta 10 200 ≤ 180) ∧
      shortestAngularDelta 10 200 = -shortestAngularDelta 200 10) :=
  ⟨by norm_num,
    C9_delta_range_and_antisymm 10 200 (by norm_num) (by norm_num) (by norm_num) (by norm_num)⟩

/-! ## C10 -/

/-- C10: `handleCommand` modifies only the active-command slot and the
trajectory-progress index: position, velocity, heading and timestamp are
unchanged by command intake, and the submitted command becomes active. -/
theorem C10_handleCommand_frame (cmd : Command) (st : SimState) :
    (handleCommand cmd st).position = st.position ∧
    (handleCommand cmd st).velocity = st.velocity ∧
    (handleCommand cmd st).heading = st.heading ∧
    (handleCommand cmd st).timestamp = st.timestamp ∧
    (handleCommand cmd st).activeCommand = some cmd := by
  simp only [handleCommand]
  split_ifs <;> simp

/-! ## C2 -/

/-- C2 counterexample: accepting a Stop command does *not* zero the motion.
From a cruising state with ground speed 100 m/s, the moment Stop becomes the
active command (`handleCommand`) the ground speed is still 100, and it is
still 100 after the next tick. -/
theorem C2_counterexample :
    (handleCommand Command.stop stCruise).velocity.groundSpeed = 100 ∧
    ¬((handleCommand Command.stop stCruise).velocity.groundSpeed = 0) ∧
    tick gZero none cfg0 dt0 1 (handleCommand Command.stop stCruise) =
      some { stCruise with activeCommand := some Command.stop, timestamp := 1 } := by
  constructor
  · decide
  constructor
  · decide
  · decide

/-- C2 (amended): accepting a Stop command does not zero ground or vertical
speed; instead, while Stop is the active command every tick leaves position,
velocity and heading exactly unchanged (only the timestamp is restamped) —
motion halts because position is no longer integrated — and this remains so
until the command is replaced. -/
theorem C2_stop_tick_noop (g : GeoModel) (env : Option Environment) (cfg : SimConfig)
    (dt : ℚ) (now : ℕ) (st : SimState) (h : st.activeCommand = some Command.stop) :
    tick g env cfg dt now st = some { st with timestamp := now } := by
  obtain ⟨p, v, hd, ts, ac, tj⟩ := st
  simp only at h
  subst h
  rfl

/-- Witness for C2: a cruising state with Stop active. -/
theorem C2_stop_tick_noop_witness :
    ({ stCruise with activeCommand := some Command.stop } : SimState).activeCommand =
      some Command.stop ∧
    tick gZero none cfg0 dt0 3 { stCruise with activeCommand := some Command.stop } =
      some { stCruise with activeCommand := some Command.stop, timestamp := 3 } :=
  ⟨rfl, C2_stop_tick_noop gZero none cfg0 dt0 3 _ rfl⟩

/-! ## C1 -/

/-- C1: on any tick where the haversine distance from the current position to
the active GoTo target is strictly below `positionTolerance`, the tick
completes the command: the active slot is cleared, ground and vertical speed
are set to 0, and position and heading are unchanged by that tick. -/
theorem C1_goto_completes (g : GeoModel) (env : Option Environment) (cfg : SimConfig)
    (dt : ℚ) (now : ℕ) (st : SimState) (c : GoToCommand)
    (hcmd : st.activeCommand = some (Command.goto c))
    (hdist : Haversine g st.position.latitude st.position.longitude
      c.target.latitude c.target.longitude < cfg.positionTolerance) :
    ∃ st', tick g env cfg dt now st = some st' ∧
      st'.activeCommand = none ∧
      st'.velocity.groundSpeed = 0 ∧ st'.velocity.verticalSpeed = 0 ∧
      st'.position = st.position ∧ st'.heading = st.heading := by
  obtain ⟨p, v, hd, ts, ac, tj⟩ := st
  simp only at hcmd hdist
  subst hcmd
  refine ⟨⟨p, ⟨0, 0⟩, hd, now, none, tj⟩, ?_, rfl, rfl, rfl, rfl, rfl⟩
  simp only [tick, executeGoTo]
  rw [if_pos hdist]
  rfl

/-- A GoTo command whose target is the current position (distance 0, within
the 10 m tolerance). -/
def stGotoNear : SimState :=
  { stCruise with activeCommand := some (Command.goto ⟨⟨32, 34, 1000⟩, none⟩) }

/-- Witness for C1: `gZero.atan2` is identically 0, matching the IEEE
`Haversine` value 0 at coincident points, so the distance is below the
tolerance and the tick completes the GoTo. -/
theorem C1_goto_completes_witness :
    (stGotoNear.activeCommand = some (Command.goto ⟨⟨32, 34, 1000⟩, none⟩) ∧
      Haversine gZero stGotoNear.position.latitude stGotoNear.position.longitude
        32 34 < cfg0.positionTolerance) ∧
    (∃ st', tick gZero none cfg0 dt0 4 stGotoNear = some st' ∧
      st'.activeCommand = none ∧
      st'.velocity.groundSpeed = 0 ∧ st'.velocity.verticalSpeed = 0 ∧
      st'.position = stGotoNear.position ∧ st'.heading = stGotoNear.heading) :=
  ⟨⟨rfl, by norm_num [Haversine, gZero, toRadians, cfg0, stGotoNear, stCruise]⟩,
    C1_goto_completes gZero none cfg0 dt0 4 stGotoNear ⟨⟨32, 34, 1000⟩, none⟩ rfl
      (by norm_num [Haversine, gZero, toRadians, cfg0, stGotoNear, stCruise])⟩

/-! ## C4 -/

/-- C4: each tick steps an active Trajectory as follows.  If the waypoint
index has reached the end of the list: with `loop` it resets to 0 (the tick
proceeds exactly as if the index were 0), without `loop` the command is
cleared and both speeds zeroed.  Otherwise, if the current waypoint is within
`positionTolerance`, the index is incremented by exactly 1 and the active
command is *not* cleared; otherwise the GoTo step runs toward that
waypoint. -/
theorem C4_trajectory_step (g : GeoModel) (env : Option Environment) (cfg : SimConfig)
    (dt : ℚ) (now : ℕ) (st : SimState) (tc : TrajectoryCommand) (idx : ℕ)
    (hcmd : st.activeCommand = some (Command.trajectory tc))
    (hidx : st.trajectoryState = some idx) :
    (tc.waypoints.length ≤ idx → tc.loop = false →
      tick g env cfg dt now st =
        some { st with activeCommand := none, trajectoryState := none,
                       velocity := ⟨0, 0⟩, timestamp := now }) ∧
    (tc.waypoints.length ≤ idx → tc.loop = true →
      tick g env cfg dt now st =
        tick g env cfg dt now { st with trajectoryState := some 0 }) ∧
    (∀ wp, tc.waypoints.get? idx = some wp →
      Haversine g st.position.latitude st.position.longitude
        wp.position.latitude wp.position.longitude < cfg.positionTolerance →
      tick g env cfg dt now st =
        some { st with trajectoryState := some (idx + 1), timestamp := now }) ∧
    (∀ wp, tc.waypoints.get? idx = some wp →
      ¬(Haversine g st.position.latitude st.position.longitude
        wp.position.latitude wp.position.longitude < cfg.positionTolerance) →
      tick g env cfg dt now st =
        some { executeGoTo g cfg ⟨wp.position, wp.speed⟩ dt st with timestamp := now }) := by
  obtain ⟨p, v, hd, ts, ac, tj⟩ := st
  simp only at hcmd hidx
  subst hcmd
  subst hidx
  refine ⟨?_, ?_, ?_, ?_⟩
  · intro hlen hloop
    simp only [tick, executeTrajectory, Option.getD_some]
    rw [if_pos hlen, hloop]
    rfl
  · intro hlen hloop
    simp only [tick, executeTrajectory, Option.getD_some]
    rw [if_pos hlen, hloop]
    by_cases h0 : tc.waypoints.length ≤ 0
    · rw [if_pos h0]
    · rw [if_neg h0]
      rfl
  · intro wp hwp hdist
    obtain ⟨hlt, -⟩ := List.get?_eq_some.mp hwp
    simp only [tick, executeTrajectory, Option.getD_some]
    rw [if_neg (by omega)]
    simp only [trajProcess]
    rw [hwp]
    simp only [if_pos hdist]
    rfl
  · intro wp hwp hdist
    obtain ⟨hlt, -⟩ := List.get?_eq_some.mp hwp
    simp only [tick, executeTrajectory, Option.getD_some]
    rw [if_neg (by omega)]
    simp only [trajProcess]
    rw [hwp]
    simp only [if_neg hdist]
    rfl

/-- First scenario waypoint: coincides with the current position. -/
def wpA : Waypoint := ⟨⟨32, 34, 1000⟩, none⟩

/-- Second scenario waypoint. -/
def wpB : Waypoint := ⟨⟨33, 35, 1200⟩, none⟩

/-- A two-waypoint, non-looping trajectory. -/
def tcA : TrajectoryCommand := ⟨[wpA, wpB], false⟩

/-- Cruising state with `tcA` active at waypoint index 0. -/
def stTraj : SimState :=
  { stCruise with activeCommand := some (Command.trajectory tcA), trajectoryState := some 0 }

/-- Witness for C4, exercising the waypoint-reached case: waypoint 0
coincides with the position, so the index advances 0 → 1 and the active
command is kept. -/
theorem C4_trajectory_step_witness :
    (stTraj.activeCommand = some (Command.trajectory tcA) ∧
      stTraj.trajectoryState = some 0) ∧
    tick gZero none cfg0 dt0 6 stTraj =
      some { stTraj with trajectoryState := some 1, timestamp := 6 } := by
  refine ⟨⟨rfl, rfl⟩, ?_⟩
  have h := (C4_trajectory_step gZero none cfg0 dt0 6 stTraj tcA 0 rfl rfl).2.2.1
  exact h wpA rfl (by norm_num [Haversine, gZero, toRadians, cfg0, stTraj, stCruise, wpA])

/-! ## C5 -/

/-- The malformed command of the C5 counterexample: an empty looping
trajectory, installed as the active command. -/
def stEmptyLoop : SimState :=
  { stCruise with
    activeCommand := some (Command.trajectory ⟨[], true⟩)
    trajectoryState := some 0 }

/-- The waypoint-processing tail cannot panic when the index is in range. -/
lemma trajProcess_some (g : GeoModel) (cfg : SimConfig) (tc : TrajectoryCommand)
    (dt : ℚ) (idx : ℕ) (st : SimState) (h : idx < tc.waypoints.length) :
    ∃ st', trajProcess g cfg tc dt idx st = some st' := by
  simp only [trajProcess, List.get?_eq_get h]
  split_ifs <;> exact ⟨_, rfl⟩

/-- `executeTrajectory` completes (no out-of-range index) for every
trajectory whose waypoint list is nonempty or whose `loop` flag is off. -/
lemma executeTrajectory_some (g : GeoModel) (cfg : SimConfig) (tc : TrajectoryCommand)
    (dt : ℚ) (st : SimState) (hok : tc.waypoints ≠ [] ∨ tc.loop = false) :
    ∃ st', executeTrajectory g cfg tc dt st = some st' := by
  simp only [executeTrajectory]
  by_cases hlen : tc.waypoints.length ≤ st.trajectoryState.getD 0
  · rw [if_pos hlen]
    cases hcl : tc.loop
    · exact ⟨{ st with trajectoryState := none, activeCommand := none, velocity := ⟨0, 0⟩ },
        by simp⟩
    · have hne : tc.waypoints ≠ [] := by
        rcases hok with h | h
        · exact h
        · rw [hcl] at h
          cases h
      have h0 : 0 < tc.waypoints.length := List.length_pos.mpr hne
      simpa using trajProcess_some g cfg tc dt 0 _ h0
  · rw [if_neg hlen]
    exact trajProcess_some g cfg tc dt _ _ (by omega)

/-- C5 counterexample: a Trajectory command with an *empty* waypoint list and
`loop = true` reaches `cmd.Waypoints[0]` on a zero-length slice — an
out-of-bounds index (Go panic, modelled as `none`): the tick does not
complete normally. -/
theorem C5_counterexample :
    stEmptyLoop.activeCommand = some (Command.trajectory ⟨[], true⟩) ∧
    tick gZero none cfg0 dt0 2 stEmptyLoop = none :=
  ⟨rfl, rfl⟩

/-- C5 (amended): for every command accepted into the active slot *except* a
Trajectory with an empty waypoint list and `loop = true`, the tick performs
no out-of-bounds indexing and completes normally.  In the excepted case the
tick indexes `Waypoints[0]` on an empty slice and panics; an empty-waypoint
Trajectory with `loop = false` completes normally (command cleared, motion
zeroed).  Upstream validation (`ValidateTrajectoryCommand`) rejects empty
waypoint lists, so such commands do not reach the actor through the API. -/
theorem C5_tick_total_unless_empty_loop (g : GeoModel) (env : Option Environment)
    (cfg : SimConfig) (dt : ℚ) (now : ℕ) (st : SimState) (cmd : Command)
    (hcmd : st.activeCommand = some cmd)
    (hok : ∀ tc, cmd = Command.trajectory tc → tc.waypoints ≠ [] ∨ tc.loop = false) :
    ∃ st', tick g env cfg dt now st = some st' := by
  obtain ⟨p, v, hd, ts, ac, tj⟩ := st
  simp only at hcmd
  subst hcmd
  cases cmd with
  | goto c => exact ⟨_, rfl⟩
  | hold => exact ⟨_, rfl⟩
  | stop => exact ⟨_, rfl⟩
  | trajectory tc =>
    obtain ⟨st', hst⟩ := executeTrajectory_some g cfg tc dt
      ⟨p, v, hd, ts, some (Command.trajectory tc), tj⟩ (hok tc rfl)
    exact ⟨_, by simp only [tick, hst]; rfl⟩

/-- Witness for C5: the two-waypoint non-looping trajectory ticks to a
defined state. -/
theorem C5_tick_total_unless_empty_loop_witness :
    stTraj.activeCommand = some (Command.trajectory tcA) ∧
    (∃ st', tick gZero none cfg0 dt0 8 stTraj = some st') :=
  ⟨rfl,
    C5_tick_total_unless_empty_loop gZero none cfg0 dt0 8 stTraj
      (Command.trajectory tcA) rfl
      (fun tc h => by
        injection h with h2
        rw [← h2]
        exact Or.inr rfl)⟩

/-! ## C6 -/

/-- `adjustSpeed` never touches vertical speed. -/
lemma adjustSpeed_vs (cfg : SimConfig) (t dt : ℚ) (v : Velocity) :
    (adjustSpeed cfg t dt v).verticalSpeed = v.verticalSpeed := rfl

/-- `adjustSpeed` toward target 0 keeps a zero ground speed at zero, for a
nonnegative rate budget. -/
lemma adjustSpeed_zero_stays (cfg : SimConfig) (dt : ℚ) (v : Velocity)
    (hv : v.groundSpeed = 0) (h : 0 ≤ cfg.speedChangeRate * dt) :
    (adjustSpeed cfg 0 dt v).groundSpeed = 0 := by
  rcases lt_or_eq_of_le h with hmc | hmc
  · simp only [adjustSpeed, hv]
    split_ifs <;> norm_num at * <;> linarith
  · simp only [adjustSpeed, hv, ← hmc]
    split_ifs <;> norm_num at * <;> linarith

/-- `clamp 0` over an interval containing 0 is 0. -/
lemma clamp_zero (lo hi : ℚ) (hlo : lo ≤ 0) (hhi : 0 ≤ hi) : clamp 0 lo hi = 0 := by
  simp only [clamp]
  split_ifs <;> linarith

/-- The vertical block at zero ground speed and positive distance sets
vertical speed to `clamp 0 = 0` (the `+Inf` path). -/
lemma goToVertical_zero_gs (cfg : SimConfig) (distance altDiff : ℚ) (v : Velocity)
    (hgs : v.groundSpeed = 0) (hd : 0 < distance)
    (hdesc : 0 ≤ cfg.maxDescentRate) (hclimb : 0 ≤ cfg.maxClimbRate) :
    goToVertical cfg distance altDiff v = { v with verticalSpeed := 0 } := by
  simp only [goToVertical]
  rw [if_pos hgs, if_pos hd, clamp_zero (-cfg.maxDescentRate) cfg.maxClimbRate
    (by linarith) hclimb]

/-- Integration keeps a zero vertical speed at zero. -/
lemma updatePosition_vs_zero (g : GeoModel) (dt : ℚ) (vel : Velocity) (st : SimState)
    (h : st.velocity.verticalSpeed = 0) :
    (updatePosition g dt vel st).velocity.verticalSpeed = 0 := by
  simp only [updatePosition]
  split_ifs <;> simp [h]

/-- C6 (amended): the `timeToTarget > 0` test does *not* skip the
vertical-speed update on a tick where ground speed is zero and the target is
not yet reached: in IEEE-754, `distance / 0 = +Inf` passes the guard and
`altitudeDiff / +Inf = 0`, so vertical speed is *set to 0* (the clamp of 0
under nonnegative climb/descent limits) rather than left unchanged.  No
division fault occurs; the update is genuinely skipped only when distance
and ground speed are both zero (`NaN > 0` is false), which cannot happen
past the positive-tolerance completion check. -/
theorem C6_zero_groundspeed_zeroes_vertical (g : GeoModel) (cfg : SimConfig) (dt : ℚ)
    (c : GoToCommand) (st : SimState)
    (hgs : st.velocity.groundSpeed = 0) (hspd : c.speed = some 0)
    (hrate : 0 ≤ cfg.speedChangeRate * dt)
    (hfar : ¬(Haversine g st.position.latitude st.position.longitude
      c.target.latitude c.target.longitude < cfg.positionTolerance))
    (hpos : 0 < Haversine g st.position.latitude st.position.longitude
      c.target.latitude c.target.longitude)
    (hdesc : 0 ≤ cfg.maxDescentRate) (hclimb : 0 ≤ cfg.maxClimbRate) :
    (executeGoTo g cfg c dt st).velocity.verticalSpeed = 0 := by
  have hv1 : (adjustSpeed cfg 0 dt st.velocity).groundSpeed = 0 :=
    adjustSpeed_zero_stays cfg dt st.velocity hgs hrate
  simp only [executeGoTo]
  rw [if_neg hfar, hspd]
  simp only [Option.getD_some]
  rw [goToVertical_zero_gs cfg _ _ _ hv1 hpos hdesc hclimb]
  exact updatePosition_vs_zero g dt _ _ rfl

/-- A transcendental model for the C6 evaluation, matching the IEEE
functions in the regime reached by it: cosine of the small radian arguments
is ≈ 1, sine and `atan2` are in their small-angle regime (`sin q ≈ q`,
`atan2 y x ≈ y` for `x ≈ 1`), and the table holds the two square roots the
haversine formula consults. -/
def gLin : GeoModel :=
  { pi := 3, cos := fun _ => 1, sin := fun q => q,
    sqrt := fun q => if q = 1 / 14400 then 1 / 120 else if q = 2500 then 50 else 0,
    atan2 := fun y _ => y }

/-- GoTo one degree of latitude north, commanded speed 0. -/
def cmdC6 : GoToCommand := ⟨⟨33, 34, 2000⟩, some 0⟩

/-- Stationary but climbing state with `cmdC6` active. -/
def stC6 : SimState :=
  { position := ⟨32, 34, 1000⟩, velocity := ⟨0, 5⟩, heading := 0,
    timestamp := 0, activeCommand := some (Command.goto cmdC6), trajectoryState := none }

/-- C6 counterexample: on a tick with zero ground speed and the target ≈ 106 km
away (not reached), the vertical speed is *changed* from 5 to 0 — the
`timeToTarget > 0` guard does not skip the update (`distance/0 = +Inf` in
IEEE-754 passes it, and `altitudeDiff/+Inf = 0` is written back). -/
theorem C6_counterexample :
    stC6.velocity.groundSpeed = 0 ∧ stC6.velocity.verticalSpeed = 5 ∧
    ¬(Haversine gLin stC6.position.latitude stC6.position.longitude
      cmdC6.target.latitude cmdC6.target.longitude < cfg0.positionTolerance) ∧
    tick gLin none cfg0 dt0 7 stC6 =
      some { stC6 with velocity := ⟨0, 0⟩, timestamp := 7 } := by
  refine ⟨rfl, rfl, by norm_num [Haversine, gLin, toRadians, stC6, cmdC6, cfg0], ?_⟩
  norm_num [tick, executeGoTo, Haversine, Bearing, adjustHeading, shortestAngularDelta,
    adjustSpeed, goToVertical, clamp, updatePosition, goMod, ratTrunc, toRadians,
    toDegrees, gLin, cfg0, dt0, stC6, cmdC6]

/-- Witness for C6 at the same concrete input, through the amended
theorem. -/
theorem C6_zero_groundspeed_zeroes_vertical_witness :
    (stC6.velocity.groundSpeed = 0 ∧ cmdC6.speed = some 0 ∧
      (0:ℚ) ≤ cfg0.speedChangeRate * dt0 ∧
      ¬(Haversine gLin stC6.position.latitude stC6.position.longitude
        cmdC6.target.latitude cmdC6.target.longitude < cfg0.positionTolerance) ∧
      0 < Haversine gLin stC6.position.latitude stC6.position.longitude
        cmdC6.target.latitude cmdC6.target.longitude ∧
      (0:ℚ) ≤ cfg0.maxDescentRate ∧ (0:ℚ) ≤ cfg0.maxClimbRate) ∧
    (executeGoTo gLin cfg0 cmdC6 dt0 stC6).velocity.verticalSpeed = 0 := by
  have hfar : ¬(Haversine gLin stC6.position.latitude stC6.position.longitude
      cmdC6.target.latitude cmdC6.target.longitude < cfg0.positionTolerance) := by
    norm_num [Haversine, gLin, toRadians, stC6, cmdC6, cfg0]
  have hpos : 0 < Haversine gLin stC6.position.latitude stC6.position.longitude
      cmdC6.target.latitude cmdC6.target.longitude := by
    norm_num [Haversine, gLin, toRadians, stC6, cmdC6]
  refine ⟨⟨rfl, rfl, by norm_num [cfg0, dt0], hfar, hpos,
    by norm_num [cfg0], by norm_num [cfg0]⟩, ?_⟩
  exact C6_zero_groundspeed_zeroes_vertical gLin cfg0 dt0 cmdC6 stC6 rfl rfl
    (by norm_num [cfg0, dt0]) hfar hpos (by norm_num [cfg0]) (by norm_num [cfg0])

/-! ## C8 -/

/-- C8 counterexample: with no active command and no wind but a *nonzero
ground speed* (100 m/s), one tick moves the aircraft: latitude changes by
`100·dt/111000` (heading 0, `cos 0 = 1`, `sin 0 = 0` exactly in IEEE-754),
so position is not constant across ticks. -/
theorem C8_counterexample :
    stCruise.activeCommand = none ∧ stCruise.velocity.groundSpeed = 100 ∧
    tick gLin none cfg0 dt0 3 stCruise =
      some { stCruise with position := ⟨32 + 1 / 11100, 34, 2001 / 2⟩, timestamp := 3 } ∧
    ¬((32 + 1 / 11100 : ℚ) = 32) := by
  refine ⟨rfl, rfl, ?_, by norm_num⟩
  norm_num [tick, updatePosition, envIsEnabled, gLin, cfg0, dt0, stCruise]

/-- The spec's "no wind" condition: the environment pointer is nil, or the
environment is disabled, or no wind effect is installed, or the wind speed
is zero. -/
def zeroWind : Option Environment → Prop
  | none => True
  | some e => e.enabled = false ∨ e.wind = none ∨ ∃ w, e.wind = some w ∧ w.speed = 0

/-- Under `zeroWind`, the environment passes a zero velocity through
unchanged (using only that the model's `sqrt 0 = 0`, exact in IEEE-754). -/
lemma applyEffects_zero_velocity (g : GeoModel) (env : Option Environment) (heading : ℚ)
    (hwind : zeroWind env) (hsqrt : g.sqrt 0 = 0) :
    applyEffects g env heading ⟨0, 0⟩ = ⟨0, 0⟩ := by
  cases env with
  | none => rfl
  | some e =>
    simp only [zeroWind] at hwind
    rcases hwind with h1 | h2 | ⟨w, hw, hws⟩
    · simp [applyEffects, h1]
    · simp [applyEffects, h2]
    · simp [applyEffects, hw, windApply, hws, hsqrt]

/-- Integration of a zero velocity leaves the state unchanged (for a
nonnegative altitude). -/
lemma updatePosition_zero (g : GeoModel) (dt : ℚ) (st : SimState)
    (halt : 0 ≤ st.position.altitude) :
    updatePosition g dt ⟨0, 0⟩ st = st := by
  obtain ⟨⟨lat, lon, alt⟩, v, hd, ts, ac, tj⟩ := st
  simp only at halt
  simp [updatePosition, not_lt.mpr halt]

/-- One idle (commandless), windless, motionless tick only restamps the
timestamp. -/
lemma idle_tick (g : GeoModel) (env : Option Environment) (cfg : SimConfig) (dt : ℚ)
    (now : ℕ) (st : SimState) (hcmd : st.activeCommand = none)
    (hv : st.velocity = ⟨0, 0⟩) (halt : 0 ≤ st.position.altitude)
    (hwind : zeroWind env) (hsqrt : g.sqrt 0 = 0) :
    tick g env cfg dt now st = some { st with timestamp := now } := by
  have heff := applyEffects_zero_velocity g env st.heading hwind hsqrt
  simp only [tick, hcmd, hv, heff]
  split_ifs <;> rw [updatePosition_zero g dt st halt] <;> simp [hv, hcmd]

/-- Iterated idle ticks change at most the timestamp. -/
lemma idle_tickN (g : GeoModel) (env : Option Environment) (cfg : SimConfig) (dt : ℚ)
    (nows : ℕ → ℕ) (hwind : zeroWind env) (hsqrt : g.sqrt 0 = 0) :
    ∀ n (st : SimState), st.activeCommand = none → st.velocity = ⟨0, 0⟩ →
      0 ≤ st.position.altitude →
      ∃ ts', tickN g env cfg dt nows n st = some { st with timestamp := ts' } := by
  intro n
  induction n with
  | zero =>
    intro st h1 h2 h3
    exact ⟨st.timestamp, rfl⟩
  | succ n ih =>
    intro st h1 h2 h3
    have h4 := idle_tick g env cfg dt (nows n) st h1 h2 h3 hwind hsqrt
    obtain ⟨ts', h5⟩ := ih { st with timestamp := nows n } h1 h2 h3
    exact ⟨ts', by simp only [tickN, h4, Option.bind_some]; exact h5⟩

/-- C8 (amended): with no active command, no wind (environment nil, disabled,
windless, or zero wind speed), *and zero ground and vertical speed*, the
latitude, longitude, altitude and heading are exactly unchanged by any number
of ticks (only the timestamp moves).  Without the zero-velocity condition the
claim fails: an idle tick integrates the current velocity. -/
theorem C8_idle_no_wind_constant (g : GeoModel) (env : Option Environment)
    (cfg : SimConfig) (dt : ℚ) (nows : ℕ → ℕ) (n : ℕ) (st : SimState)
    (hcmd : st.activeCommand = none)
    (hgs : st.velocity.groundSpeed = 0) (hvs : st.velocity.verticalSpeed = 0)
    (halt : 0 ≤ st.position.altitude)
    (hwind : zeroWind env) (hsqrt : g.sqrt 0 = 0) :
    ∃ st', tickN g env cfg dt nows n st = some st' ∧
      st'.position = st.position ∧ st'.heading = st.heading := by
  have hv : st.velocity = ⟨0, 0⟩ := by
    rw [show st.velocity = ⟨st.velocity.groundSpeed, st.velocity.verticalSpeed⟩ from rfl,
      hgs, hvs]
  obtain ⟨ts', h⟩ := idle_tickN g env cfg dt nows hwind hsqrt n st hcmd hv halt
  exact ⟨{ st with timestamp := ts' }, h, rfl, rfl⟩

/-- A parked state: no command, zero speeds. -/
def stParked : SimState :=
  { position := ⟨32, 34, 1000⟩, velocity := ⟨0, 0⟩, heading := 90,
    timestamp := 0, activeCommand := none, trajectoryState := none }

/-- An enabled environment whose wind has zero speed. -/
def envCalm : Option Environment := some { wind := some ⟨270, 0⟩, enabled := true }

/-- Witness for C8: two ticks of a parked aircraft under an enabled but
zero-speed wind leave position and heading unchanged. -/
theorem C8_idle_no_wind_constant_witness :
    (stParked.activeCommand = none ∧ stParked.velocity.groundSpeed = 0 ∧
      stParked.velocity.verticalSpeed = 0 ∧ (0:ℚ) ≤ stParked.position.altitude ∧
      zeroWind envCalm ∧ gZero.sqrt 0 = 0) ∧
    (∃ st', tickN gZero envCalm cfg0 dt0 (fun k => k + 11) 2 stParked = some st' ∧
      st'.position = stParked.position ∧ st'.heading = stParked.heading) :=
  ⟨⟨rfl, rfl, rfl, by norm_num [stParked], Or.inr (Or.inr ⟨⟨270, 0⟩, rfl, rfl⟩), rfl⟩,
    C8_idle_no_wind_constant gZero envCalm cfg0 dt0 (fun k => k + 11) 2 stParked
      rfl rfl rfl (by norm_num [stParked]) (Or.inr (Or.inr ⟨⟨270, 0⟩, rfl, rfl⟩)) rfl⟩

/-! ## C7 -/

/-- Integration never writes the heading. -/
lemma updatePosition_heading (g : GeoModel) (dt : ℚ) (vel : Velocity) (st : SimState) :
    (updatePosition g dt vel st).heading = st.heading := by
  simp only [updatePosition]
  split_ifs <;> rfl

/-- The GoTo step keeps the heading in `[0, 360)`: it either leaves it
untouched (target reached) or writes `adjustHeading` toward a `Bearing`,
both normalized. -/
lemma executeGoTo_heading_mem (g : GeoModel) (cfg : SimConfig) (c : GoToCommand)
    (dt : ℚ) (st : SimState)
    (hrate : 0 ≤ cfg.headingChangeRate * dt) (hpi : 0 < g.pi)
    (hatan : ∀ y x : ℚ, |g.atan2 y x| ≤ g.pi)
    (hh0 : 0 ≤ st.heading) (hh1 : st.heading < 360) :
    0 ≤ (executeGoTo g cfg c dt st).heading ∧ (executeGoTo g cfg c dt st).heading < 360 := by
  simp only [executeGoTo]
  split_ifs with h1
  · exact ⟨hh0, hh1⟩
  · obtain ⟨hb0, hb1⟩ := bearing_mem g hpi hatan st.position.latitude st.position.longitude
      c.target.latitude c.target.longitude
    have hadj := adjustHeading_mem cfg
      (Bearing g st.position.latitude st.position.longitude
        c.target.latitude c.target.longitude) dt st.heading hrate hh0 hh1 hb0 hb1
    rw [updatePosition_heading]
    exact hadj

/-- The trajectory waypoint step keeps the heading in `[0, 360)`. -/
lemma trajProcess_heading_mem (g : GeoModel) (cfg : SimConfig) (tc : TrajectoryCommand)
    (dt : ℚ) (idx : ℕ) (st : SimState)
    (hrate : 0 ≤ cfg.headingChangeRate * dt) (hpi : 0 < g.pi)
    (hatan : ∀ y x : ℚ, |g.atan2 y x| ≤ g.pi)
    (hh0 : 0 ≤ st.heading) (hh1 : st.heading < 360) :
    ∀ s, trajProcess g cfg tc dt idx st = some s → 0 ≤ s.heading ∧ s.heading < 360 := by
  intro s hs
  simp only [trajProcess] at hs
  cases hw : tc.waypoints.get? idx with
  | none =>
    simp only [hw] at hs
    exact Option.noConfusion hs
  | some wp =>
    simp only [hw] at hs
    split_ifs at hs with h1
    · obtain rfl : _ = s := Option.some.inj hs
      exact ⟨hh0, hh1⟩
    · obtain rfl : _ = s := Option.some.inj hs
      exact executeGoTo_heading_mem g cfg ⟨wp.position, wp.speed⟩ dt st hrate hpi hatan hh0 hh1

/-- The trajectory step keeps the heading in `[0, 360)`. -/
lemma executeTrajectory_heading_mem (g : GeoModel) (cfg : SimConfig) (tc : TrajectoryCommand)
    (dt : ℚ) (st : SimState)
    (hrate : 0 ≤ cfg.headingChangeRate * dt) (hpi : 0 < g.pi)
    (hatan : ∀ y x : ℚ, |g.atan2 y x| ≤ g.pi)
    (hh0 : 0 ≤ st.heading) (hh1 : st.heading < 360) :
    ∀ s, executeTrajectory g cfg tc dt st = some s → 0 ≤ s.heading ∧ s.heading < 360 := by
  intro s hs
  simp only [executeTrajectory] at hs
  split_ifs at hs with h1 h2
  · exact trajProcess_heading_mem g cfg tc dt 0
      { st with trajectoryState := some 0 } hrate hpi hatan hh0 hh1 s hs
  · obtain rfl : _ = s := Option.some.inj hs
    exact ⟨hh0, hh1⟩
  · exact trajProcess_heading_mem g cfg tc dt (st.trajectoryState.getD 0)
      { st with trajectoryState := some (st.trajectoryState.getD 0) }
      hrate hpi hatan hh0 hh1 s hs

/-- C7: the heading stays in `[0, 360)` across every tick (every write goes
through `adjustHeading` toward a normalized `Bearing`, ending in
`math.Mod(·+360, 360)`), and command intake never writes the heading — so by
induction the heading is always in `[0, 360)` for every tick sequence and
interleaving of commands, given a normalized initial heading, a nonnegative
turn budget, and `math.Atan2`'s IEEE range `|atan2| ≤ π`. -/
theorem C7_heading_always_normalized (g : GeoModel) (env : Option Environment)
    (cfg : SimConfig) (dt : ℚ) (now : ℕ) (st : SimState)
    (hrate : 0 ≤ cfg.headingChangeRate * dt) (hpi : 0 < g.pi)
    (hatan : ∀ y x : ℚ, |g.atan2 y x| ≤ g.pi)
    (hh0 : 0 ≤ st.heading) (hh1 : st.heading < 360) :
    (∀ st', tick g env cfg dt now st = some st' →
      0 ≤ st'.heading ∧ st'.heading < 360) ∧
    (∀ cmd, (handleCommand cmd st).heading = st.heading) := by
  constructor
  · intro st' h
    cases hac : st.activeCommand with
    | none =>
      simp only [tick, hac, Option.map_some] at h
      obtain rfl : _ = st' := Option.some.inj h
      simpa [updatePosition_heading] using And.intro hh0 hh1
    | some cmd =>
      cases cmd with
      | goto c =>
        simp only [tick, hac, Option.map_some] at h
        obtain rfl : _ = st' := Option.some.inj h
        simpa using executeGoTo_heading_mem g cfg c dt st hrate hpi hatan hh0 hh1
      | trajectory tc =>
        simp only [tick, hac] at h
        obtain ⟨s, hs, rfl⟩ := Option.map_eq_some'.mp h
        simpa using executeTrajectory_heading_mem g cfg tc dt st hrate hpi hatan hh0 hh1 s hs
      | hold =>
        simp only [tick, hac, Option.map_some] at h
        obtain rfl : _ = st' := Option.some.inj h
        simp only [executeHold]
        simpa [updatePosition_heading] using And.intro hh0 hh1
      | stop =>
        simp only [tick, hac, Option.map_some] at h
        obtain rfl : _ = st' := Option.some.inj h
        exact ⟨hh0, hh1⟩
  · intro cmd
    simp only [handleCommand]
    split_ifs <;> rfl

/-- The completed-GoTo state reached from `stGotoNear` in one tick. -/
def stGotoDone : SimState :=
  { stGotoNear with activeCommand := none, velocity := ⟨0, 0⟩, timestamp := 5 }

/-- Witness for C7: a concrete GoTo tick lands with the heading still in
`[0, 360)`. -/
theorem C7_heading_always_normalized_witness :
    ((0:ℚ) ≤ cfg0.headingChangeRate * dt0 ∧ 0 < gZero.pi ∧
      (∀ y x : ℚ, |gZero.atan2 y x| ≤ gZero.pi) ∧
      (0:ℚ) ≤ stGotoNear.heading ∧ stGotoNear.heading < 360 ∧
      tick gZero none cfg0 dt0 5 stGotoNear = some stGotoDone) ∧
    (0 ≤ stGotoDone.heading ∧ stGotoDone.heading < 360) := by
  have htick : tick gZero none cfg0 dt0 5 stGotoNear = some stGotoDone := by
    norm_num [tick, executeGoTo, Haversine, gZero, toRadians, cfg0, dt0,
      stGotoNear, stCruise, stGotoDone, envIsEnabled]
  refine ⟨⟨by norm_num [cfg0, dt0], by norm_num [gZero],
    fun y x => by norm_num [gZero], by norm_num [stGotoNear, stCruise],
    by norm_num [stGotoNear, stCruise], htick⟩, ?_⟩
  exact (C7_heading_always_normalized gZero none cfg0 dt0 5 stGotoNear
    (by norm_num [cfg0, dt0]) (by norm_num [gZero]) (fun y x => by norm_num [gZero])
    (by norm_num [stGotoNear, stCruise]) (by norm_num [stGotoNear, stCruise])).1
    stGotoDone htick

/-! ## C3 -/

/-- `ApplyEffects` is the identity when the environment is nil or disabled. -/
lemma applyEffects_not_enabled (g : GeoModel) (env : Option Environment)
    (heading : ℚ) (v : Velocity) (h : envIsEnabled env = false) :
    applyEffects g env heading v = v := by
  cases env with
  | none => rfl
  | some e =>
    simp only [envIsEnabled] at h
    simp [applyEffects, h]

/-- C3 (amended): the tick computes the effective (wind-perturbed) velocity,
but only the *no-active-command* branch integrates with it; for every state
with an active command — GoTo, Trajectory, Hold or Stop — the tick is
identical to a tick with no environment at all (GoTo integrates the state
velocity it just adjusted; Trajectory and Hold receive the effective
velocity as a parameter and never read it). -/
theorem C3_effective_velocity_only_when_idle (g : GeoModel) (env : Option Environment)
    (cfg : SimConfig) (dt : ℚ) (now : ℕ) (st : SimState) :
    tick g env cfg dt now st =
      if st.activeCommand = none then
        some { updatePosition g dt (applyEffects g env st.heading st.velocity) st with
               timestamp := now }
      else tick g none cfg dt now st := by
  cases hac : st.activeCommand with
  | none =>
    simp only [tick, hac, Option.map_some, if_pos]
    split_ifs with he
    · rfl
    · rw [applyEffects_not_enabled g env st.heading st.velocity (by simpa using he)]
      rfl
  | some cmd =>
    simp only [tick, hac]
    rw [if_neg (show ¬(some cmd = none) from by simp)]
    cases cmd <;> rfl

/-- An enabled environment with a 50 m/s wind from due north. -/
def envW : Option Environment := some { wind := some ⟨0, 50⟩, enabled := true }

/-- Northbound GoTo state at the equator, ground speed 100 m/s. -/
def stWind : SimState :=
  { position := ⟨0, 0, 1000⟩, velocity := ⟨100, 0⟩, heading := 0, timestamp := 0,
    activeCommand := some (Command.goto ⟨⟨1, 0, 1000⟩, none⟩), trajectoryState := none }

/-- The state one tick after `stWind`: the latitude advanced by
`100·dt/111000` — the *raw* ground speed, not the 50 m/s effective one. -/
def stWindAfter : SimState :=
  { stWind with position := ⟨1 / 11100, 0, 1000⟩, timestamp := 5 }

/-- C3 counterexample: with a 50 m/s headwind the effective ground speed is
50 m/s, yet the GoTo tick displaces the aircraft by the raw 100 m/s — the
integrated motion does not use the effective velocity for GoTo. -/
theorem C3_counterexample :
    stWind.velocity = ⟨100, 0⟩ ∧
    applyEffects gLin envW stWind.heading stWind.velocity = ⟨50, 0⟩ ∧
    tick gLin envW cfg0 dt0 5 stWind = some stWindAfter ∧
    stWindAfter.position.latitude = stWind.position.latitude + 100 * dt0 / 111000 ∧
    ¬(stWindAfter.position.latitude = stWind.position.latitude + 50 * dt0 / 111000) := by
  refine ⟨rfl, ?_, ?_, by norm_num [stWind, stWindAfter, dt0],
    by norm_num [stWind, stWindAfter, dt0]⟩
  · norm_num [applyEffects, windApply, gLin, envW, stWind]
  · norm_num [tick, executeGoTo, Haversine, Bearing, adjustHeading, shortestAngularDelta,
      adjustSpeed, goToVertical, clamp, updatePosition, goMod, ratTrunc, toRadians,
      toDegrees, applyEffects, windApply, envIsEnabled, gLin, envW, cfg0, dt0,
      stWind, stWindAfter]
